import Mathlib

/-!
Verification of the RAG pipeline implemented in app.py.

The development shallowly embeds the pipeline: pure pieces of the Python
code become Lean functions over String, List and the rationals, the
generator generate_response becomes a function returning the list of
yielded values together with the generator return value and call counts
for the generation engine, and the streamlit chat handler becomes a fold
over that list of yielded values. Wall-clock readings and the external
embedding and generation models are parameters of the definitions.
-/

/-- Python int() truncation toward zero, on a rational. For a nonnegative
rational it agrees with the floor. -/
def pyInt (q : ℚ) : Int := if q < 0 then - Rat.floor (-q) else Rat.floor q

/-- Python floor division a // b on floats, modelled on rationals: the
result is the float whose value is the floor of the true quotient. -/
def pyFloorDiv (a b : ℚ) : ℚ := (Rat.floor (a / b) : ℚ)

/-- Python float modulo a % b, which satisfies a % b = a - b * (a // b). -/
def pyMod (a b : ℚ) : ℚ := a - b * pyFloorDiv a b

/-- RAGSystem._format_time from app.py lines 126-129:
minutes = response_time // 60, seconds = response_time % 60, and the
result is made of int(minutes) and int(seconds); the branch tests the
truthiness of the float minutes, that is, minutes being nonzero. -/
def format_time (t : ℚ) : String :=
  let minutes : ℚ := pyFloorDiv t 60
  let seconds : ℚ := pyMod t 60
  if minutes ≠ 0 then toString (pyInt minutes) ++ "m " ++ toString (pyInt seconds) ++ "s"
  else "Time: " ++ toString (pyInt seconds) ++ "s"

/-- A value yielded by the Python generator generate_response: either a
text update, which in Python is a str, or the terminal metadata record,
which in Python is a tuple of the token count and the formatted time. -/
inductive PyVal where
  | str : String → PyVal
  | tup : Nat → String → PyVal
  deriving DecidableEq, Repr

/-- The isinstance chunk tuple test of the chat handler, app.py line 340. -/
def isTuple : PyVal → Bool
  | PyVal.tup _ _ => true
  | PyVal.str _ => false

/-- The generation engine behind ollama_llm: get_num_tokens and stream,
app.py lines 173 and 177. The fragment sequence of a stream call is its
value on the prompt. -/
structure GenEngine where
  tokenCount : String → Nat
  stream : String → List String

/-- The observable behaviour of one run of the generator
generate_response: the list of yielded values in order, the generator
return value carried by StopIteration, and how many times each engine
operation was invoked. -/
structure GenOutput where
  yields : List PyVal
  ret : Option String
  tokenCountCalls : Nat
  streamCalls : Nat
  deriving DecidableEq, Repr

/-- The loop of app.py lines 176-179: starting from the accumulator acc,
append each fragment and yield the running accumulation. -/
def accumFrom : String → List String → List String
  | _, [] => []
  | acc, f :: fs => (acc ++ f) :: accumFrom (acc ++ f) fs

/-- Concatenation of a list of fragments, as the loop of lines 176-179
builds it once streaming ends. -/
def concatAll (l : List String) : String := l.foldl (fun a b => a ++ b) ""

/-- Segment of the prompt template of app.py lines 152-170 before the
Context label. -/
def promptSeg1 : String := "\n        You are an AI assistant specialized in answering questions based **only** on the provided context.  \n        The context is structured with sections separated by \x60-----\x60.  \n\n        "

/-- The Context label of the prompt template. -/
def promptLabelContext : String := "### **Context:**"

/-- Segment between the Context label and the joined passages. -/
def promptSeg2 : String := "  \n        \x27\x27\x27  \n        "

/-- Segment between the joined passages and the Question label. -/
def promptSeg3 : String := "  \n        \x27\x27\x27  \n\n        "

/-- The Question label of the prompt template. -/
def promptLabelQuestion : String := "### **Question:**"

/-- Segment between the Question label and the query. -/
def promptSeg4 : String := "  \n        \""

/-- Segment between the query and the Instructions label. -/
def promptSeg5 : String := "\"  \n\n        "

/-- The Instructions label of the prompt template. -/
def promptLabelInstructions : String := "### **Instructions:**"

/-- Segment between the Instructions label and the fixed fallback
sentence of the instruction block. -/
def promptSeg6 : String := "  \n        - Answer concisely and accurately using only the given context.  \n        - Put what you find from the context without summarizing.\n        - If the answer is unclear or missing, state: \""

/-- The fixed fallback sentence the instruction block tells the model to
emit when the context is insufficient, app.py line 167. -/
def promptFallback : String := "The provided context does not contain enough information."

/-- Final segment of the prompt template, through the Answer label. -/
def promptSeg7 : String := "\"  \n\n        ### **Answer:**\n        "

/-- The delimiter joining retrieved passages, app.py line 150. -/
def promptDelim : String := "\n-----\n"

/-- The prompt assembly of app.py lines 150-170: the f-string template
with the delimiter-joined passages and the query interpolated. -/
def build_prompt (docs : List String) (query : String) : String :=
  promptSeg1 ++ promptLabelContext ++ promptSeg2 ++
  String.intercalate promptDelim docs ++ promptSeg3 ++
  promptLabelQuestion ++ promptSeg4 ++ query ++ promptSeg5 ++
  promptLabelInstructions ++ promptSeg6 ++ promptFallback ++ promptSeg7

/-- The fixed response of app.py line 148 for an empty retrieval. -/
def fallbackResponse : String := "No relevant information found."

/-- A chunk held by the vector store: its text and embedding vector. -/
structure StoredChunk where
  text : String
  vector : List ℚ

/-- Squared euclidean distance between two embedding vectors. -/
def sqDist (u v : List ℚ) : ℚ := (List.zipWith (fun a b => (a - b) ^ 2) u v).sum

/-- Comparison of candidate passages by distance to the query vector. -/
def distLe (a b : String × ℚ) : Prop := a.2 ≤ b.2

instance : DecidableRel distLe := fun a b => inferInstanceAs (Decidable (a.2 ≤ b.2))

instance : IsTotal (String × ℚ) distLe := ⟨fun a b => le_total a.2 b.2⟩

instance : IsTrans (String × ℚ) distLe := ⟨fun _ _ _ h1 h2 => le_trans h1 h2⟩

/-- Modelled from the spec: the chroma collection query used at app.py
line 137 is not part of this repository, so it is modelled from the
vector store contract of the spec: it pairs every stored chunk with its
distance to the query vector, sorts by ascending distance with a stable
sort so that ties keep insertion order, and returns the k nearest; a
collection with fewer than k entries yields all of them. -/
def collectionQuery (chunks : List StoredChunk) (qv : List ℚ) (k : Nat) :
    List (String × ℚ) :=
  (List.insertionSort distLe (chunks.map (fun c => (c.text, sqDist qv c.vector)))).take k

/-- Modelled from the spec: the documents field of the chroma query
result holds one list of passage texts per query embedding; app.py line
137 passes a single query embedding. -/
def chromaQueryDocuments (chunks : List StoredChunk) (qv : List ℚ) (k : Nat) :
    List (List String) :=
  [(collectionQuery chunks qv k).map Prod.fst]

/-- RAGSystem._retrieve, app.py lines 134-142: embed the user text, query
the collection, return an empty list when the documents field is falsy
and its first entry otherwise. The embedding provider is a parameter
returning either a vector or a raised error. -/
def rag_retrieve (embed : String → Except String (List ℚ)) (chunks : List StoredChunk)
    (nResults : Nat) (userText : String) : Except String (List String) := do
  let emb ← embed userText
  let documents := chromaQueryDocuments chunks emb nResults
  match documents with
  | [] => pure []
  | d :: _ => pure d

/-- The body of RAGSystem.generate_response after retrieval, app.py lines
147-182, as the observable behaviour of the generator: an empty retrieval
runs the Python statement return, so the generator yields nothing and
carries the fixed response only as its StopIteration value, with the
engine never invoked; otherwise it yields every accumulated prefix of the
streamed fragments and then the single metadata tuple. responseTime is
the wall-clock difference measured around the streaming loop. -/
def generate_body (docs : List String) (query : String) (eng : GenEngine)
    (responseTime : ℚ) : GenOutput :=
  if docs = [] then
    { yields := [], ret := some fallbackResponse, tokenCountCalls := 0, streamCalls := 0 }
  else
    let prompt := build_prompt docs query
    { yields := (accumFrom "" (eng.stream prompt)).map PyVal.str ++
        [PyVal.tup (eng.tokenCount prompt) (format_time responseTime)],
      ret := none, tokenCountCalls := 1, streamCalls := 1 }

/-- RAGSystem.generate_response, app.py lines 144-182: retrieval followed
by the generator body; an error raised by the embedding provider inside
_retrieve propagates out of the generator unchanged. -/
def generate_response (embed : String → Except String (List ℚ)) (chunks : List StoredChunk)
    (nResults : Nat) (eng : GenEngine) (responseTime : ℚ) (query : String) :
    Except String GenOutput :=
  (rag_retrieve embed chunks nResults query).map
    (fun docs => generate_body docs query eng responseTime)

/-- The local state of the chat handler loop, app.py lines 336-344:
streamed_response starts as the empty string, token_count and
response_time start unbound, and renderedUpdates records every string
passed to the placeholder markdown call in order. -/
structure ConsumerState where
  streamedResponse : String
  tokenCount : Option Nat
  responseTime : Option String
  renderedUpdates : List String
  deriving DecidableEq, Repr

/-- One iteration of the loop of app.py lines 339-344: a tuple is
unpacked into the metadata variables, any other value replaces
streamed_response and is rendered. -/
def consumeChunk (st : ConsumerState) (v : PyVal) : ConsumerState :=
  match v with
  | PyVal.tup tc rt => { st with tokenCount := some tc, responseTime := some rt }
  | PyVal.str s =>
    { st with streamedResponse := s, renderedUpdates := st.renderedUpdates ++ [s] }

/-- The handler state before the loop, app.py lines 336-337. -/
def initialConsumerState : ConsumerState :=
  { streamedResponse := "", tokenCount := none, responseTime := none, renderedUpdates := [] }

/-- The whole handler loop over the yielded values. -/
def runConsumer (items : List PyVal) : ConsumerState :=
  items.foldl consumeChunk initialConsumerState

/-- The characters of the opening think tag matched by remove_tags. -/
def thinkOpen : List Char := "<think>".toList

/-- The characters of the closing think tag matched by remove_tags. -/
def thinkClose : List Char := "</think>".toList

/-- Scan for the first closing think tag and return what follows it. -/
def dropThroughClose : List Char → Option (List Char)
  | [] => none
  | c :: cs =>
    if List.isPrefixOf thinkClose (c :: cs) then some (List.drop thinkClose.length (c :: cs))
    else dropThroughClose cs

/-- The global nongreedy substitution of the regex of app.py line 197 on
a character list: at each position a think block extending to the nearest
closing tag is deleted, any other character is kept. The fuel argument,
instantiated with the length of the input, only drives termination. -/
def removeThinkFuel : Nat → List Char → List Char
  | 0, cs => cs
  | _ + 1, [] => []
  | fuel + 1, c :: cs =>
    if List.isPrefixOf thinkOpen (c :: cs) then
      match dropThroughClose (List.drop thinkOpen.length (c :: cs)) with
      | some rest => removeThinkFuel fuel rest
      | none => c :: removeThinkFuel fuel cs
    else c :: removeThinkFuel fuel cs

/-- The default whitespace set of the Python str.strip call. -/
def pyIsSpace (c : Char) : Bool :=
  c = ' ' || c = '\t' || c = '\n' || c = '\r' || c = '\x0b' || c = '\x0c'

/-- Python str.strip with no argument: drop whitespace from both ends. -/
def pyStrip (s : String) : String :=
  String.mk (((s.toList.dropWhile pyIsSpace).reverse.dropWhile pyIsSpace).reverse)

/-- remove_tags, app.py lines 196-197: delete every nongreedy think
block, then strip surrounding whitespace. -/
def remove_tags (text : String) : String :=
  pyStrip (String.mk (removeThinkFuel text.toList.length text.toList))

/-- The stored assistant message of app.py lines 348-353: the f-string
that embeds remove_tags of the final streamed response together with the
token count and the response time. -/
def storedMessage (cleaned : String) (tc : Nat) (rt : String) : String :=
  "\n                " ++ cleaned ++
  "\n\n                \n----\n                Token Count: " ++ toString tc ++
  " | Response Time: " ++ rt ++ "\n                "

/-- The chat handler after its loop, app.py lines 346-356: if the
metadata variables were bound by some yielded tuple the assistant message
is stored, otherwise line 346 raises a NameError on token_count, caught
by the except branch of line 357. -/
def handlerResult (out : GenOutput) : Except String String :=
  let st := runConsumer out.yields
  match st.tokenCount, st.responseTime with
  | some tc, some rt => Except.ok (storedMessage (remove_tags st.streamedResponse) tc rt)
  | _, _ => Except.error "name \x27token_count\x27 is not defined"

/-- An external effect performed while RAGSystem.__init__ runs. -/
inductive InitEvent where
  | createLLM : String → InitEvent
  | setupLogging : InitEvent
  | createEmbeddingModel : String → InitEvent
  | createClient : String → InitEvent
  | getOrCreateCollection : String → InitEvent
  deriving DecidableEq, Repr

/-- The configuration a successfully constructed RAGSystem holds. -/
structure RAGConfig where
  collection_name : String
  db_path : String
  ollama_model : String
  n_results : Nat
  deriving DecidableEq, Repr

/-- RAGSystem.__init__, app.py lines 91-104: the OllamaLLM wrapper is
constructed first, then an empty collection_name raises ValueError before
logging is set up, before the embedding model and the persistent client
are created, and before any collection is opened; the check is a single
unconditional raise with no retry. The first component lists the external
effects performed, in order. -/
def ragInit (collection_name db_path ollama_model : String) (n_results : Nat) :
    List InitEvent × Except String RAGConfig :=
  let ev := [InitEvent.createLLM ollama_model]
  if collection_name = "" then
    (ev, Except.error "\x27collection_name\x27 parameter is required.")
  else
    (ev ++ [InitEvent.setupLogging,
            InitEvent.createEmbeddingModel "mxbai-embed-large:latest",
            InitEvent.createClient db_path,
            InitEvent.getOrCreateCollection collection_name],
     Except.ok { collection_name := collection_name, db_path := db_path,
                 ollama_model := ollama_model, n_results := n_results })

/-- Character pieces of bounded size: cut the list into consecutive
pieces of k + 1 characters. The fuel argument, instantiated with the
length of the input, only drives termination. -/
def charPiecesFuel (k : Nat) : Nat → List Char → List (List Char)
  | _, [] => []
  | 0, l => [List.take (k + 1) l]
  | fuel + 1, c :: cs => List.take (k + 1) (c :: cs) :: charPiecesFuel k fuel (List.drop k cs)

/-- Cut a character list into consecutive pieces of at most k + 1
characters. -/
def charPieces (k : Nat) (l : List Char) : List (List Char) :=
  charPiecesFuel k l.length l

/-- Split a character list on every occurrence of a separator, left to
right; cur accumulates the current piece reversed. The fuel argument,
instantiated with the length of the input, only drives termination. -/
def splitSepFuel (sep : List Char) : Nat → List Char → List Char → List (List Char)
  | 0, cur, rest => [cur.reverse ++ rest]
  | _ + 1, cur, [] => [cur.reverse]
  | fuel + 1, cur, c :: cs =>
    if !sep.isEmpty && List.isPrefixOf sep (c :: cs) then
      cur.reverse :: splitSepFuel sep fuel [] (List.drop sep.length (c :: cs))
    else
      splitSepFuel sep fuel (c :: cur) cs

/-- Split a string on a separator and drop empty pieces, as the splitter
does between recursion levels. -/
def splitOnSep (sep : String) (s : String) : List String :=
  ((splitSepFuel sep.toList s.toList.length [] s.toList).map String.mk).filter
    (fun p => p ≠ "")

/-- Modelled from the spec: the separator hierarchy of the recursive
character splitter, paragraph then line then word boundaries, with
character-level splitting as the final fallback. -/
def splitterSeparators : List String := ["\n\n", "\n", " "]

/-- Modelled from the spec: the recursive splitting pass of
RecursiveCharacterTextSplitter (a langchain dependency, not part of this
repository): split on the coarsest separator, keep every piece already
within chunkSize, recursively split any piece that still exceeds it on
finer separators, and at character level cut into pieces of exactly
chunkSize characters. -/
def recPieces (chunkSize : Nat) : List String → String → List String
  | [], s => (charPieces (chunkSize - 1) s.toList).map String.mk
  | sep :: rest, s =>
    (splitOnSep sep s).flatMap fun p =>
      if p.length ≤ chunkSize then [p] else recPieces chunkSize rest p

/-- The last n characters of a string, the overlap carried between
consecutive chunks. -/
def strTakeRight (n : Nat) (s : String) : String :=
  String.mk (s.toList.drop (s.toList.length - n))

/-- Modelled from the spec: the merge pass of the splitter: pieces are
packed greedily into a chunk while it stays within chunkSize; when a
chunk is emitted the next one starts from the last overlap characters of
it, dropped again if even they would push the next chunk past
chunkSize. -/
def mergePieces (chunkSize overlap : Nat) : String → List String → List String
  | acc, [] => if acc = "" then [] else [acc]
  | acc, p :: ps =>
    if acc.length + p.length ≤ chunkSize then
      mergePieces chunkSize overlap (acc ++ p) ps
    else
      let carry := strTakeRight overlap acc
      acc :: mergePieces chunkSize overlap
        (if carry.length + p.length ≤ chunkSize then carry ++ p else p) ps

/-- Modelled from the spec: split_text of the configured
RecursiveCharacterTextSplitter, app.py lines 268-269: recursive splitting
followed by the overlap-aware merge. -/
def split_text (chunkSize overlap : Nat) (s : String) : List String :=
  mergePieces chunkSize overlap "" (recPieces chunkSize splitterSeparators s)

/-- A fixed probe engine used by closed theorems about concrete runs. -/
def engProbe : GenEngine :=
  { tokenCount := fun _ => 7, stream := fun _ => ["alpha"] }

/-- A probe engine whose stream opens a think block mid-stream, used to
show that rendered updates are never post-processed. -/
def engThink : GenEngine :=
  { tokenCount := fun _ => 3, stream := fun _ => ["<think>a</think>", "b"] }

/-- A probe embedding provider returning a fixed vector. -/
def embProbe : String → Except String (List ℚ) := fun _ => Except.ok [(0:ℚ)]

/-- A probe store of two chunks used by closed instantiations. -/
def chunksProbe : List StoredChunk :=
  [{ text := "alpha doc", vector := [0] }, { text := "beta doc", vector := [1] }]

theorem ratFloor_eq_intFloor (q : ℚ) : Rat.floor q = ⌊q⌋ := rfl

theorem pyInt_of_nonneg (q : ℚ) (h : 0 ≤ q) : pyInt q = ⌊q⌋ := by
  unfold pyInt
  rw [if_neg (not_lt.mpr h)]
  rfl

theorem pyFloorDiv_eq (a b : ℚ) : pyFloorDiv a b = (⌊a / b⌋ : ℚ) := rfl

theorem pyMod_eq (a b : ℚ) : pyMod a b = a - b * (⌊a / b⌋ : ℚ) := rfl

theorem floorDiv60_nonneg (t : ℚ) (h : 0 ≤ t) : (0 : Int) ≤ ⌊t / 60⌋ := by
  apply Int.le_floor.mpr
  simpa using div_nonneg h (by norm_num)

theorem mod60_nonneg (t : ℚ) (h : 0 ≤ t) : 0 ≤ t - 60 * (⌊t / 60⌋ : ℚ) := by
  have h1 : (⌊t / 60⌋ : ℚ) ≤ t / 60 := Int.floor_le (t / 60)
  have h2 : (60 : ℚ) * (⌊t / 60⌋ : ℚ) ≤ 60 * (t / 60) := by
    apply mul_le_mul_of_nonneg_left h1 (by norm_num)
  have h3 : (60 : ℚ) * (t / 60) = t := by ring
  linarith

theorem floorDiv60_eq_zero_iff (t : ℚ) (h : 0 ≤ t) : ⌊t / 60⌋ = 0 ↔ t < 60 := by
  rw [Int.floor_eq_zero_iff]
  constructor
  · intro hm
    have := hm.2
    have h60 : (0:ℚ) < 60 := by norm_num
    rw [div_lt_iff h60] at this
    linarith
  · intro hlt
    constructor
    · exact div_nonneg h (by norm_num)
    · have h60 : (0:ℚ) < 60 := by norm_num
      rw [div_lt_iff h60]
      linarith

/-- Claim C10: for every nonnegative response time t, format_time returns
the string made of floor(t / 60), the letter m, floor(t mod 60) and the
letter s when at least one full minute has elapsed, and otherwise the
string Time: floor(t mod 60) s; the prefix Time: appears only in the
sub-minute case, and since there is no hour branch, durations of an hour
or more are still reported only in minutes. -/
theorem C10_format_time (t : ℚ) (h : 0 ≤ t) :
    (60 ≤ t → format_time t =
      toString ⌊t / 60⌋ ++ "m " ++ toString ⌊t - 60 * (⌊t / 60⌋ : ℚ)⌋ ++ "s") ∧
    (t < 60 → format_time t =
      "Time: " ++ toString ⌊t - 60 * (⌊t / 60⌋ : ℚ)⌋ ++ "s") := by
  have hmin : pyFloorDiv t 60 = (⌊t / 60⌋ : ℚ) := pyFloorDiv_eq t 60
  have hsec : pyMod t 60 = t - 60 * (⌊t / 60⌋ : ℚ) := pyMod_eq t 60
  have hsec_nonneg : 0 ≤ t - 60 * (⌊t / 60⌋ : ℚ) := mod60_nonneg t h
  have hpyInt_sec : pyInt (t - 60 * (⌊t / 60⌋ : ℚ)) = ⌊t - 60 * (⌊t / 60⌋ : ℚ)⌋ :=
    pyInt_of_nonneg _ hsec_nonneg
  constructor
  · intro h60
    have hne : ⌊t / 60⌋ ≠ 0 := by
      rw [Ne, floorDiv60_eq_zero_iff t h]
      exact not_lt.mpr h60
    have hneQ : (⌊t / 60⌋ : ℚ) ≠ 0 := by
      simpa using hne
    have hfloor_nonneg : (0:ℚ) ≤ (⌊t / 60⌋ : ℚ) := by
      exact_mod_cast floorDiv60_nonneg t h
    have hpyInt_min : pyInt ((⌊t / 60⌋ : ℚ)) = ⌊t / 60⌋ := by
      rw [pyInt_of_nonneg _ hfloor_nonneg, Int.floor_intCast]
    unfold format_time
    simp only [hmin, hsec, if_pos hneQ, hpyInt_min, hpyInt_sec]
  · intro hlt
    have hz : ⌊t / 60⌋ = 0 := (floorDiv60_eq_zero_iff t h).mpr hlt
    have hzQ : (⌊t / 60⌋ : ℚ) = 0 := by
      simpa using hz
    have hpy : pyInt t = ⌊t⌋ := pyInt_of_nonneg t h
    unfold format_time
    simp only [hmin, hsec, hzQ, mul_zero, sub_zero]
    rw [if_neg (by simp), hpy]

/-- Witness for C10 at t = 3700 seconds, a duration of more than an hour:
the hypotheses hold and the conclusion is obtained from the theorem. -/
theorem C10_format_time_witness :
    (0 ≤ (3700 : ℚ)) ∧
    ((60 ≤ (3700:ℚ) → format_time 3700 =
      toString ⌊(3700:ℚ) / 60⌋ ++ "m " ++ toString ⌊(3700:ℚ) - 60 * (⌊(3700:ℚ) / 60⌋ : ℚ)⌋ ++ "s") ∧
    ((3700:ℚ) < 60 → format_time 3700 =
      "Time: " ++ toString ⌊(3700:ℚ) - 60 * (⌊(3700:ℚ) / 60⌋ : ℚ)⌋ ++ "s")) :=
  ⟨by norm_num, C10_format_time 3700 (by norm_num)⟩

theorem foldl_append_shift (l : List String) : ∀ a b : String,
    List.foldl (fun x y => x ++ y) (a ++ b) l = a ++ List.foldl (fun x y => x ++ y) b l := by
  induction l with
  | nil => intro a b; rfl
  | cons f fs ih =>
    intro a b
    simp only [List.foldl_cons]
    rw [String.append_assoc, ih]

theorem concatAll_cons (f : String) (fs : List String) :
    concatAll (f :: fs) = f ++ concatAll fs := by
  have h1 : concatAll (f :: fs) = List.foldl (fun x y => x ++ y) ("" ++ f) fs := rfl
  rw [h1, String.empty_append]
  have h2 := foldl_append_shift fs f ""
  rw [String.append_empty] at h2
  rw [h2]
  rfl

theorem accumFrom_eq (frags : List String) : ∀ acc : String,
    accumFrom acc frags =
      (List.range frags.length).map (fun i => acc ++ concatAll (List.take (i + 1) frags)) := by
  induction frags with
  | nil => intro acc; rfl
  | cons f fs ih =>
    intro acc
    simp only [accumFrom, List.length_cons]
    rw [List.range_succ_eq_map, List.map_cons, List.map_map, ih (acc ++ f)]
    congr 1
    apply List.map_congr_left
    intro i _
    simp only [Function.comp_apply]
    rw [List.take_succ_cons, concatAll_cons, ← String.append_assoc]

theorem accumFrom_getLast (frags : List String) : ∀ acc : String, frags ≠ [] →
    (accumFrom acc frags).getLast? = some (acc ++ concatAll frags) := by
  induction frags with
  | nil => intro acc h; exact absurd rfl h
  | cons f fs ih =>
    intro acc _
    cases fs with
    | nil =>
      show ([acc ++ f] : List String).getLast? = some (acc ++ concatAll [f])
      rw [concatAll_cons]
      simp [concatAll]
    | cons f2 fs2 =>
      have h1 : accumFrom acc (f :: f2 :: fs2) =
          (acc ++ f) :: ((acc ++ f) ++ f2) :: accumFrom ((acc ++ f) ++ f2) fs2 := rfl
      have h2 : accumFrom (acc ++ f) (f2 :: fs2) =
          ((acc ++ f) ++ f2) :: accumFrom ((acc ++ f) ++ f2) fs2 := rfl
      rw [h1, List.getLast?_cons_cons, ← h2, ih (acc ++ f) (by simp),
        concatAll_cons f, ← String.append_assoc]

/-- Claim C2: for a nonempty retrieval, the generator yields exactly the
accumulated prefixes of the streamed fragments, in order, followed by one
terminal metadata record and nothing else; the last accumulated string is
the concatenation of all fragments. -/
theorem C2_streaming_prefixes (docs : List String) (h : docs ≠ []) (query : String)
    (eng : GenEngine) (rt : ℚ) :
    (generate_body docs query eng rt).yields =
      (List.range (eng.stream (build_prompt docs query)).length).map
        (fun i => PyVal.str (concatAll (List.take (i + 1) (eng.stream (build_prompt docs query))))) ++
      [PyVal.tup (eng.tokenCount (build_prompt docs query)) (format_time rt)] ∧
    (accumFrom "" (eng.stream (build_prompt docs query))).getLast? =
      (if eng.stream (build_prompt docs query) = [] then none
       else some (concatAll (eng.stream (build_prompt docs query)))) := by
  constructor
  case left =>
    simp only [generate_body, if_neg h]
    rw [accumFrom_eq, List.map_map]
    congr 1
  case right =>
    by_cases hf : eng.stream (build_prompt docs query) = []
    · rw [if_pos hf, hf]
      rfl
    · rw [if_neg hf, accumFrom_getLast _ _ hf, String.empty_append]

/-- Witness for C2 at a one-passage retrieval and the fixed probe
engine. -/
theorem C2_streaming_prefixes_witness :
    ((["passage"] : List String) ≠ []) ∧
    ((generate_body ["passage"] "q" engProbe 0).yields =
      (List.range (engProbe.stream (build_prompt ["passage"] "q")).length).map
        (fun i => PyVal.str (concatAll (List.take (i + 1) (engProbe.stream (build_prompt ["passage"] "q"))))) ++
      [PyVal.tup (engProbe.tokenCount (build_prompt ["passage"] "q")) (format_time 0)] ∧
    (accumFrom "" (engProbe.stream (build_prompt ["passage"] "q"))).getLast? =
      (if engProbe.stream (build_prompt ["passage"] "q") = [] then none
       else some (concatAll (engProbe.stream (build_prompt ["passage"] "q"))))) :=
  ⟨by decide, C2_streaming_prefixes ["passage"] (by decide) "q" engProbe 0⟩

/-- Claim C3: on the nonempty path the last yielded value is the single
metadata tuple, every earlier yielded value is a text string, and the
isinstance tuple test of the consumer separates the two constructors
without ambiguity. -/
theorem C3_metadata_distinguishable (docs : List String) (h : docs ≠ []) (query : String)
    (eng : GenEngine) (rt : ℚ) :
    ((generate_body docs query eng rt).yields.getLast? =
      some (PyVal.tup (eng.tokenCount (build_prompt docs query)) (format_time rt))) ∧
    (∀ v ∈ (generate_body docs query eng rt).yields.dropLast,
      isTuple v = false ∧ ∃ s, v = PyVal.str s) ∧
    (∀ v : PyVal, (isTuple v = true ↔ ∃ tc ts, v = PyVal.tup tc ts) ∧
      (isTuple v = false ↔ ∃ s, v = PyVal.str s)) := by
  refine ⟨?_, ?_, ?_⟩
  · simp only [generate_body, if_neg h]
    exact List.getLast?_concat _
  · simp only [generate_body, if_neg h]
    rw [List.dropLast_concat]
    intro v hv
    rcases List.mem_map.mp hv with ⟨s, _, rfl⟩
    exact ⟨rfl, ⟨s, rfl⟩⟩
  · intro v
    cases v <;> simp [isTuple]

/-- Witness for C3 at a one-passage retrieval and the fixed probe
engine. -/
theorem C3_metadata_distinguishable_witness :
    ((["passage"] : List String) ≠ []) ∧
    (((generate_body ["passage"] "q" engProbe 0).yields.getLast? =
      some (PyVal.tup (engProbe.tokenCount (build_prompt ["passage"] "q")) (format_time 0))) ∧
    (∀ v ∈ (generate_body ["passage"] "q" engProbe 0).yields.dropLast,
      isTuple v = false ∧ ∃ s, v = PyVal.str s) ∧
    (∀ v : PyVal, (isTuple v = true ↔ ∃ tc ts, v = PyVal.tup tc ts) ∧
      (isTuple v = false ↔ ∃ s, v = PyVal.str s))) :=
  ⟨by decide, C3_metadata_distinguishable ["passage"] (by decide) "q" engProbe 0⟩

/-- Claim C1 is refuted by the code: on an empty retrieval the Python
statement return inside the generator only sets the StopIteration value,
so the caller iterating the generator observes zero yielded values and
never receives the string No relevant information found.; the engine is
indeed never invoked, but the chat handler then reads the never-bound
token_count variable and fails with a NameError instead of displaying the
fixed response. This closed run over an empty store exhibits exactly
that. -/
theorem C1_empty_retrieval_code_bug :
    generate_response (fun _ => Except.ok [(1:ℚ)]) [] 5 engProbe 0 "any question" =
      Except.ok { yields := [], ret := some "No relevant information found.",
                  tokenCountCalls := 0, streamCalls := 0 } ∧
    handlerResult { yields := [], ret := some "No relevant information found.",
                    tokenCountCalls := 0, streamCalls := 0 } =
      Except.error "name \x27token_count\x27 is not defined" :=
  ⟨rfl, rfl⟩

/-- Claim C4: for a nonempty retrieval the assembled prompt contains the
passages joined by the fixed dash-line delimiter right after the Context
label, the exact query string right after the Question label, and the
fixed instruction block with the literal fallback sentence after the
Instructions label. -/
theorem C4_prompt_assembly (docs : List String) (h : docs ≠ []) (q : String) :
    (∃ a b, build_prompt docs q =
      a ++ ("### **Context:**" ++ promptSeg2 ++ String.intercalate "\n-----\n" docs) ++ b) ∧
    (∃ a b, build_prompt docs q =
      a ++ ("### **Question:**" ++ promptSeg4 ++ q) ++ b) ∧
    (∃ a b, build_prompt docs q =
      a ++ ("### **Instructions:**" ++ promptSeg6 ++
        "The provided context does not contain enough information.") ++ b) := by
  refine ⟨⟨promptSeg1,
      promptSeg3 ++ promptLabelQuestion ++ promptSeg4 ++ q ++ promptSeg5 ++
        promptLabelInstructions ++ promptSeg6 ++ promptFallback ++ promptSeg7, ?_⟩,
    ⟨promptSeg1 ++ promptLabelContext ++ promptSeg2 ++
        String.intercalate promptDelim docs ++ promptSeg3,
      promptSeg5 ++ promptLabelInstructions ++ promptSeg6 ++ promptFallback ++ promptSeg7, ?_⟩,
    ⟨promptSeg1 ++ promptLabelContext ++ promptSeg2 ++
        String.intercalate promptDelim docs ++ promptSeg3 ++ promptLabelQuestion ++
        promptSeg4 ++ q ++ promptSeg5,
      promptSeg7, ?_⟩⟩ <;>
  simp only [build_prompt, promptLabelContext, promptLabelQuestion, promptLabelInstructions,
    promptFallback, promptDelim, String.append_assoc]

/-- Witness for C4 at the three-chunk scenario of the spec. -/
theorem C4_prompt_assembly_witness :
    ((["Paris is the capital of France.", "It is known for the Eiffel Tower.",
        "The Seine river runs through it."] : List String) ≠ []) ∧
    ((∃ a b, build_prompt ["Paris is the capital of France.",
        "It is known for the Eiffel Tower.", "The Seine river runs through it."]
        "What is Paris known for?" =
      a ++ ("### **Context:**" ++ promptSeg2 ++ String.intercalate "\n-----\n"
        ["Paris is the capital of France.", "It is known for the Eiffel Tower.",
          "The Seine river runs through it."]) ++ b) ∧
    (∃ a b, build_prompt ["Paris is the capital of France.",
        "It is known for the Eiffel Tower.", "The Seine river runs through it."]
        "What is Paris known for?" =
      a ++ ("### **Question:**" ++ promptSeg4 ++ "What is Paris known for?") ++ b) ∧
    (∃ a b, build_prompt ["Paris is the capital of France.",
        "It is known for the Eiffel Tower.", "The Seine river runs through it."]
        "What is Paris known for?" =
      a ++ ("### **Instructions:**" ++ promptSeg6 ++
        "The provided context does not contain enough information.") ++ b)) :=
  ⟨by decide, C4_prompt_assembly
    ["Paris is the capital of France.", "It is known for the Eiffel Tower.",
      "The Seine river runs through it."] (by decide) "What is Paris known for?"⟩

/-- Claim C5: a raised embedding provider error propagates out of
_retrieve and out of generate_response unchanged, as an error value
distinguishable from every successful output, so it is never masked as an
empty retrieval or as the fixed fallback response. -/
theorem C5_provider_error_propagates (e : String) (chunks : List StoredChunk) (n : Nat)
    (eng : GenEngine) (rt : ℚ) (q : String) :
    rag_retrieve (fun _ => Except.error e) chunks n q = Except.error e ∧
    generate_response (fun _ => Except.error e) chunks n eng rt q = Except.error e ∧
    ∀ out : GenOutput, (Except.error e : Except String GenOutput) ≠ Except.ok out := by
  refine ⟨rfl, rfl, fun out hk => ?_⟩
  exact Except.noConfusion hk

/-- Claim C8: constructing a RAGSystem with an empty collection_name
fails with the ValueError of app.py line 98, and neither the persistent
client nor any collection is ever created or opened; the only effect
performed first is the OllamaLLM wrapper construction of line 94, and the
raise is unconditional, with no retry path. -/
theorem C8_empty_collection_name (db_path ollama_model : String) (n : Nat) :
    (ragInit "" db_path ollama_model n).2 =
      Except.error "\x27collection_name\x27 parameter is required." ∧
    (∀ name, InitEvent.getOrCreateCollection name ∉ (ragInit "" db_path ollama_model n).1) ∧
    (∀ path, InitEvent.createClient path ∉ (ragInit "" db_path ollama_model n).1) := by
  refine ⟨rfl, ?_, ?_⟩
  · intro name hmem
    simp [ragInit] at hmem
  · intro path hmem
    simp [ragInit] at hmem

theorem foldl_consume_strs (l : List String) (st : ConsumerState) :
    List.foldl consumeChunk st (l.map PyVal.str) =
      { st with streamedResponse := l.getLast?.getD st.streamedResponse,
                renderedUpdates := st.renderedUpdates ++ l } := by
  induction l using List.reverseRecOn generalizing st with
  | nil => simp
  | append_singleton l' a ih =>
    simp only [List.map_append, List.map_cons, List.map_nil, List.foldl_append,
      List.foldl_cons, List.foldl_nil]
    rw [ih]
    simp [consumeChunk, List.getLast?_concat]

theorem runConsumer_spec (l : List String) (tc : Nat) (ts : String) :
    runConsumer (l.map PyVal.str ++ [PyVal.tup tc ts]) =
      { streamedResponse := l.getLast?.getD "", tokenCount := some tc,
        responseTime := some ts, renderedUpdates := l } := by
  unfold runConsumer
  rw [List.foldl_append, foldl_consume_strs]
  simp [consumeChunk, initialConsumerState]

/-- Claim C9: the strings rendered during streaming are exactly the raw
accumulated prefixes, untouched by remove_tags, and the post-processing
remove_tags is applied only to the final accumulated response inside the
stored message once the loop ends. -/
theorem C9_post_processing_final_only (docs : List String) (h : docs ≠ []) (query : String)
    (eng : GenEngine) (rt : ℚ) :
    (runConsumer (generate_body docs query eng rt).yields).renderedUpdates =
      accumFrom "" (eng.stream (build_prompt docs query)) ∧
    handlerResult (generate_body docs query eng rt) =
      Except.ok (storedMessage
        (remove_tags ((accumFrom "" (eng.stream (build_prompt docs query))).getLast?.getD ""))
        (eng.tokenCount (build_prompt docs query)) (format_time rt)) := by
  constructor
  case left =>
    simp only [generate_body, if_neg h]
    rw [runConsumer_spec]
  case right =>
    simp only [handlerResult, generate_body, if_neg h]
    rw [runConsumer_spec]

/-- Witness for C9 with a stream that opens a think block mid-stream: the
theorem applies, so the rendered updates are the raw prefixes even
though they contain the think tags. -/
theorem C9_post_processing_final_only_witness :
    ((["ctx"] : List String) ≠ []) ∧
    ((runConsumer (generate_body ["ctx"] "q" engThink 0).yields).renderedUpdates =
      accumFrom "" (engThink.stream (build_prompt ["ctx"] "q")) ∧
    handlerResult (generate_body ["ctx"] "q" engThink 0) =
      Except.ok (storedMessage
        (remove_tags ((accumFrom "" (engThink.stream (build_prompt ["ctx"] "q"))).getLast?.getD ""))
        (engThink.tokenCount (build_prompt ["ctx"] "q")) (format_time 0))) :=
  ⟨by decide, C9_post_processing_final_only ["ctx"] (by decide) "q" engThink 0⟩

/-- Claim C6: with a successful query-time embedding, _retrieve returns
exactly the texts of the k nearest stored chunks, at most nResults of
them, in ascending distance order, and a store holding fewer than
nResults chunks yields exactly all of them. -/
theorem C6_retrieve_topk (embed : String → Except String (List ℚ)) (chunks : List StoredChunk)
    (n : Nat) (q : String) (emb : List ℚ) (h : embed q = Except.ok emb) :
    rag_retrieve embed chunks n q = Except.ok ((collectionQuery chunks emb n).map Prod.fst) ∧
    ((collectionQuery chunks emb n).map Prod.fst).length = min n chunks.length ∧
    List.Sorted distLe (collectionQuery chunks emb n) ∧
    (chunks.length < n →
      ((collectionQuery chunks emb n).map Prod.fst).length = chunks.length) := by
  have hlen : (collectionQuery chunks emb n).length = min n chunks.length := by
    unfold collectionQuery
    rw [List.length_take]
    congr 1
    rw [(List.perm_insertionSort distLe _).length_eq, List.length_map]
  refine ⟨?_, ?_, ?_, ?_⟩
  · unfold rag_retrieve chromaQueryDocuments
    rw [h]
    rfl
  · rw [List.length_map]
    exact hlen
  · unfold collectionQuery
    exact List.Pairwise.sublist (List.take_sublist _ _) (List.sorted_insertionSort distLe _)
  · intro hlt
    rw [List.length_map, hlen]
    exact Nat.min_eq_right (Nat.le_of_lt hlt)

/-- Witness for C6 with the fixed probe provider and a two-chunk store
queried with the configured top five. -/
theorem C6_retrieve_topk_witness :
    (embProbe "What is Paris known for?" = Except.ok [(0:ℚ)]) ∧
    (rag_retrieve embProbe chunksProbe 5 "What is Paris known for?" =
      Except.ok ((collectionQuery chunksProbe [(0:ℚ)] 5).map Prod.fst) ∧
    ((collectionQuery chunksProbe [(0:ℚ)] 5).map Prod.fst).length = min 5 chunksProbe.length ∧
    List.Sorted distLe (collectionQuery chunksProbe [(0:ℚ)] 5) ∧
    (chunksProbe.length < 5 →
      ((collectionQuery chunksProbe [(0:ℚ)] 5).map Prod.fst).length = chunksProbe.length)) :=
  ⟨rfl, C6_retrieve_topk embProbe chunksProbe 5 "What is Paris known for?" [(0:ℚ)] rfl⟩

theorem charPiecesFuel_bound (k : Nat) : ∀ (fuel : Nat) (l : List Char),
    ∀ p ∈ charPiecesFuel k fuel l, p.length ≤ k + 1 := by
  intro fuel
  induction fuel with
  | zero =>
    intro l p hp
    cases l with
    | nil => simp [charPiecesFuel] at hp
    | cons c cs =>
      simp only [charPiecesFuel, List.mem_singleton] at hp
      subst hp
      exact List.length_take_le _ _
  | succ fuel ih =>
    intro l p hp
    cases l with
    | nil => simp [charPiecesFuel] at hp
    | cons c cs =>
      simp only [charPiecesFuel, List.mem_cons] at hp
      rcases hp with rfl | hp
      · exact List.length_take_le _ _
      · exact ih _ p hp

theorem charPieces_bound (k : Nat) (l : List Char) :
    ∀ p ∈ charPieces k l, p.length ≤ k + 1 :=
  charPiecesFuel_bound k l.length l

theorem recPieces_bound (chunkSize : Nat) (h1 : 1 ≤ chunkSize) :
    ∀ (seps : List String) (s : String),
      ∀ p ∈ recPieces chunkSize seps s, p.length ≤ chunkSize := by
  intro seps
  induction seps with
  | nil =>
    intro s p hp
    simp only [recPieces, List.mem_map] at hp
    rcases hp with ⟨pc, hpc, rfl⟩
    have hb := charPieces_bound (chunkSize - 1) s.toList pc hpc
    have hlen : (String.mk pc).length = pc.length := rfl
    rw [hlen]
    omega
  | cons sep rest ih =>
    intro s p hp
    simp only [recPieces, List.mem_flatMap] at hp
    rcases hp with ⟨piece, _, hp⟩
    by_cases hle : piece.length ≤ chunkSize
    · rw [if_pos hle] at hp
      rw [List.mem_singleton] at hp
      subst hp
      exact hle
    · rw [if_neg hle] at hp
      exact ih piece p hp

theorem mergePieces_bound (chunkSize overlap : Nat) :
    ∀ (ps : List String) (acc : String), acc.length ≤ chunkSize →
      (∀ p ∈ ps, p.length ≤ chunkSize) →
      ∀ c ∈ mergePieces chunkSize overlap acc ps, c.length ≤ chunkSize := by
  intro ps
  induction ps with
  | nil =>
    intro acc hacc _ c hc
    simp only [mergePieces] at hc
    by_cases h0 : acc = ""
    · rw [if_pos h0] at hc
      simp at hc
    · rw [if_neg h0] at hc
      rw [List.mem_singleton] at hc
      subst hc
      exact hacc
  | cons p ps ih =>
    intro acc hacc hps c hc
    have hp : p.length ≤ chunkSize := hps p (List.mem_cons_self p ps)
    have hrest : ∀ q ∈ ps, q.length ≤ chunkSize :=
      fun q hq => hps q (List.mem_cons_of_mem p hq)
    simp only [mergePieces] at hc
    by_cases hfit : acc.length + p.length ≤ chunkSize
    · rw [if_pos hfit] at hc
      refine ih (acc ++ p) ?_ hrest c hc
      rw [String.length_append]
      exact hfit
    · rw [if_neg hfit] at hc
      rcases List.mem_cons.mp hc with rfl | hc
      · exact hacc
      · by_cases hcar : (strTakeRight overlap acc).length + p.length ≤ chunkSize
        · rw [if_pos hcar] at hc
          refine ih _ ?_ hrest c hc
          rw [String.length_append]
          exact hcar
        · rw [if_neg hcar] at hc
          exact ih p hp hrest c hc

/-- Claim C7: for every chunk size of at least one character, every chunk
emitted by split_text has length at most the chunk size, and the empty
input yields the empty chunk sequence rather than an error. -/
theorem C7_split_text_bound (chunkSize overlap : Nat) (s : String) (h : 1 ≤ chunkSize) :
    (∀ c ∈ split_text chunkSize overlap s, c.length ≤ chunkSize) ∧
    split_text chunkSize overlap "" = [] := by
  constructor
  · intro c hc
    unfold split_text at hc
    exact mergePieces_bound chunkSize overlap _ "" (by simp)
      (recPieces_bound chunkSize h splitterSeparators s) c hc
  · rfl

/-- Witness for C7 at the configured chunk size 2000 and overlap 200. -/
theorem C7_split_text_bound_witness :
    1 ≤ 2000 ∧
    ((∀ c ∈ split_text 2000 200 "hello splitter world", c.length ≤ 2000) ∧
    split_text 2000 200 "" = []) :=
  ⟨by decide, C7_split_text_bound 2000 200 "hello splitter world" (by decide)⟩
